import Mathlib

/-!
Verification development for the spike-sorting curation pipeline
(src/nwb_datajoint/spikesorting/spikesorting_curation.py).

The Python module is embedded shallowly: database tables become explicit
lists of records that are threaded through the operations, dictionaries
become association lists, and raised exceptions become an explicit error
type. Values that flow through dynamically typed blob columns (which in
the source can hold a merge-group list, a sorting extractor object, the
NotImplementedError class object, or a metrics table) are embedded in a
single value universe `PyVal`.
-/

namespace NwbDatajoint

/-- Unit identifiers, as produced by the sorting extractor. -/
abbrev UnitId := Nat

/-- Numeric quality-metric values. They are carried around opaquely; the
embedding never computes with them, so an integer stand-in suffices. -/
abbrev MetricValue := Int

/-- A spike-interface sorting extractor, reduced to what the curation code
observes: the list of unit ids together with each unit's spike train
(spike times in samples). -/
structure Sorting where
  units : List (UnitId × List Nat)
deriving DecidableEq

/-- sorting.get_unit_ids() -/
def Sorting.get_unit_ids (s : Sorting) : List UnitId :=
  s.units.map Prod.fst

/-- sorting.get_unit_spike_train(unit_id=u) -/
def Sorting.get_unit_spike_train (s : Sorting) (u : UnitId) : List Nat :=
  ((s.units.find? (fun p => p.1 == u)).map Prod.snd).getD []

/-- The unit-indexed json written by QualityMetrics: metric name to
(unit id rendered as a string, to value). -/
abbrev QualityMetricsJson := List (String × List (String × MetricValue))

/-- The labels blob of a Curation row: unit id to list of label strings. -/
abbrev Labels := List (UnitId × List String)

/-- Values that can sit in the blob columns of the Curation table or flow
through the dynamically typed variables of the module. -/
inductive PyVal where
  /-- a spike-interface sorting extractor object -/
  | sorting (s : Sorting)
  /-- a list of merge groups -/
  | groups (g : List (List UnitId))
  /-- the NotImplementedError class object, which the source returns (not
  raises) from its merge stubs -/
  | notImplementedErrorClass
  /-- a metric-name-keyed metrics dictionary, as stored by
  AutomaticCuration.make from the loaded quality-metrics json -/
  | metricsDict (m : QualityMetricsJson)
  /-- a unit-indexed metrics table supporting loc-style row selection, the
  shape FinalizedSpikeSorting.make reads (metrics.loc[accepted_units] and
  metrics[unit_id]) -/
  | metricsMap (m : List (UnitId × List (String × MetricValue)))
deriving DecidableEq

/-- The exceptions the embedded fragment can raise. -/
inductive PyError where
  /-- KeyError from indexing a dict with a missing unit id -/
  | keyError (u : UnitId)
  /-- KeyError from metrics.loc with labels missing from the index -/
  | locKeyError
  | typeError
  | attributeError
  /-- raise Exception(message) -/
  | exceptionMsg (msg : String)
deriving DecidableEq

/-- A row of the Curation table. -/
structure CurationRecord where
  curation_id : String
  parent_curation_id : String
  labels : Labels
  merge_groups : PyVal
  metrics : PyVal
  description : String
deriving DecidableEq

/-- The curation_id column of every row of the ledger. -/
def curationIds (ledger : List CurationRecord) : List String :=
  ledger.map (fun r => r.curation_id)

/-- One candidate id of the generation loop: the source builds
C_ plus the first eight characters of str(uuid.uuid4()); the uuid draws
are supplied as the stream uuids. -/
def candidateId (uuids : Nat → String) (i : Nat) : String :=
  "C_" ++ String.mk ((uuids i).data.take 8)

/-- The while loop of Curation.insert_curation that retries id generation
until no existing row has the candidate id. The source loop can run
forever if every draw collides, so the embedding bounds it by fuel and
returns none for a loop that has not yet terminated. The collision test
is the source check len((Curation and curation_id=id).fetch()) == 0. -/
def generateUniqueId (ledger : List CurationRecord) (uuids : Nat → String) :
    Nat → Nat → Option String
  | _, 0 => none
  | i, fuel + 1 =>
    if (ledger.filter
        (fun r => r.curation_id == candidateId uuids i)).length == 0 then
      some (candidateId uuids i)
    else generateUniqueId ledger uuids (i + 1) fuel

/-- The row assembled by Curation.insert_curation before Curation.insert1:
the optional arguments default to empty dict, empty list, empty dict. -/
def mkCurationRecord (id parent_curation_id : String) (labels : Option Labels)
    (merge_groups : Option PyVal) (metrics : Option PyVal)
    (description : String) : CurationRecord :=
  { curation_id := id
    parent_curation_id := parent_curation_id
    labels := labels.getD []
    merge_groups := merge_groups.getD (PyVal.groups [])
    metrics := metrics.getD (PyVal.metricsDict [])
    description := description }

/-- Curation.insert_curation: generates a fresh id, assembles the row and
inserts it. The table state is passed explicitly, so the result is the
returned curation_id together with the inserted row and the new table
state; none models the id loop not having terminated within fuel. -/
def insert_curation (ledger : List CurationRecord) (uuids : Nat → String)
    (fuel : Nat) (parent_curation_id : String) (labels : Option Labels)
    (merge_groups : Option PyVal) (metrics : Option PyVal)
    (description : String) :
    Option (String × CurationRecord × List CurationRecord) :=
  match generateUniqueId ledger uuids 0 fuel with
  | none => none
  | some id =>
    let row := mkCurationRecord id parent_curation_id labels merge_groups
      metrics description
    some (id, row, ledger ++ [row])

/-- Curation.get_curated_sorting_extractor, lines 99 to 118 of the source:
loads the sorting, fetches the merge_groups blob, and for a non-empty
merge-group list executes return NotImplementedError, handing back the
exception class object as an ordinary value; only for an empty list does
it return the base sorting. len() of a blob that is not a sized value
(for example a sorting extractor stored in the merge_groups column)
raises a TypeError. -/
def get_curated_sorting_extractor (sorting : Sorting) (merge_groups : PyVal) :
    Except PyError PyVal :=
  match merge_groups with
  | PyVal.groups g =>
    if g.length != 0 then Except.ok PyVal.notImplementedErrorClass
    else Except.ok (PyVal.sorting sorting)
  | _ => Except.error PyError.typeError

/-- Insertion of one spike time into a sorted spike train. -/
def insertSpike (x : Nat) : List Nat → List Nat
  | [] => [x]
  | y :: ys => if x ≤ y then x :: y :: ys else y :: insertSpike x ys

/-- Sorting of a spike train by insertion. -/
def sortSpikes : List Nat → List Nat
  | [] => []
  | x :: xs => insertSpike x (sortSpikes xs)

/-- Modelled from the spec: the merge-application policy of
get_curated_view, whose implementation is missing from the source (the
body of the non-empty branch of Curation.get_curated_sorting_extractor is
a stub). Per the spec words: per merge group, concatenate and re-sort the
constituent units spike times, assign a new synthetic unit id, and drop
the original constituent ids from the resulting view. -/
def get_curated_view_spec (s : Sorting) (merge_groups : List (List UnitId)) :
    Sorting :=
  let merged_ids := merge_groups.flatten
  let kept := s.units.filter (fun p => !(merged_ids.contains p.1))
  let maxId := s.get_unit_ids.foldr max 0
  let newUnits := merge_groups.enum.map (fun gi =>
    (maxId + 1 + gi.1,
      sortSpikes (gi.2.map (fun u => s.get_unit_spike_train u)).flatten))
  ⟨kept ++ newUnits⟩

/-- The value AutomaticCuration.get_merge_groups hands back: either a
two-tuple (first component, merged flag) or Python None (the value of
parent_merge_groups.sort(), which sorts in place and evaluates to None). -/
inductive GetMergeGroupsReturn where
  | tuple (fst : PyVal) (merged : Bool)
  | pyNone
deriving DecidableEq

/-- AutomaticCuration.get_merge_groups, lines 521 to 565 of the source.
With empty merge_params it returns the two-tuple (sorting, False), where
sorting is its first argument, the sorting extractor. Otherwise
new_merges is the empty list in the source (the metric-driven proposal is
a TODO), so the union loop adds nothing, and the function returns
parent_merge_groups.sort(), which is None; calling sort on a blob that is
not a list raises an AttributeError. -/
def get_merge_groups (sorting : PyVal) (parent_merge_groups : PyVal)
    (quality_metrics : QualityMetricsJson)
    (merge_params : List (String × String)) :
    Except PyError GetMergeGroupsReturn :=
  if merge_params.isEmpty then
    Except.ok (GetMergeGroupsReturn.tuple sorting false)
  else
    match parent_merge_groups with
    | PyVal.groups _ => Except.ok GetMergeGroupsReturn.pyNone
    | _ => Except.error PyError.attributeError

/-- AutomaticCuration.get_labels, lines 567 to 599 of the source. With
empty label_params it returns parent_labels unchanged; otherwise
new_labels is the empty dict in the source (the metric-driven proposal is
a TODO), so the merge loop adds nothing and parent_labels is again
returned unchanged. -/
def get_labels (sorting : PyVal) (parent_labels : Labels)
    (quality_metrics : QualityMetricsJson)
    (label_params : List (String × String)) : Labels :=
  if label_params.isEmpty then parent_labels
  else parent_labels

/-- Outcome of one AutomaticCuration.make run. -/
inductive AutoMakeOutcome where
  /-- the run registered a new Curation row and returned normally -/
  | inserted (row : CurationRecord) (ledger : List CurationRecord)
  /-- the run executed return NotImplementedError at the units_merged
  check, handing the class object back without inserting anything -/
  | returnedNotImplemented
  /-- an exception propagated to the caller -/
  | error (e : PyError)
  /-- the id-generation loop of insert_curation has not terminated -/
  | idLoopPending
deriving DecidableEq

/-- The merge-decision prefix of AutomaticCuration.make: resolve the
parent curated sorting, then call get_merge_groups on it. -/
def autoMergeStep (quality_metrics : QualityMetricsJson)
    (parent : CurationRecord) (base : Sorting)
    (merge_params : List (String × String)) :
    Except PyError GetMergeGroupsReturn :=
  match get_curated_sorting_extractor base parent.merge_groups with
  | Except.error e => Except.error e
  | Except.ok parent_sorting =>
    get_merge_groups parent_sorting parent.merge_groups quality_metrics
      merge_params

/-- The value bound to the units_merged variable of
AutomaticCuration.make, when the unpacking assignment succeeds. -/
def autoUnitsMerged (quality_metrics : QualityMetricsJson)
    (parent : CurationRecord) (base : Sorting)
    (merge_params : List (String × String)) : Option Bool :=
  match autoMergeStep quality_metrics parent base merge_params with
  | Except.ok (GetMergeGroupsReturn.tuple _ b) => some b
  | _ => none

/-- AutomaticCuration.make, lines 468 to 515 of the source, embedded from
the point where the fetches have succeeded: quality_metrics is the loaded
json, parent is the fetched parent Curation row, base the sorting loaded
from sorting_path, and parent_curation_id the value the key carries.
The unpacking assignment of the get_merge_groups result raises a
TypeError when that result is None; saving the curated sorting calls save
on the parent_sorting value, which raises an AttributeError unless that
value is an extractor; the nwb bookkeeping around the save is external
and modelled as succeeding. -/
def AutomaticCuration_make (quality_metrics : QualityMetricsJson)
    (parent : CurationRecord) (base : Sorting)
    (merge_params label_params : List (String × String))
    (parent_curation_id : String) (ledger : List CurationRecord)
    (uuids : Nat → String) (fuel : Nat) : AutoMakeOutcome :=
  match get_curated_sorting_extractor base parent.merge_groups with
  | Except.error e => AutoMakeOutcome.error e
  | Except.ok parent_sorting =>
    match get_merge_groups parent_sorting parent.merge_groups quality_metrics
        merge_params with
    | Except.error e => AutoMakeOutcome.error e
    | Except.ok GetMergeGroupsReturn.pyNone =>
      AutoMakeOutcome.error PyError.typeError
    | Except.ok (GetMergeGroupsReturn.tuple merge_groups units_merged) =>
      if units_merged then AutoMakeOutcome.returnedNotImplemented
      else
        match parent_sorting with
        | PyVal.sorting _ =>
          match insert_curation ledger uuids fuel parent_curation_id
              (some (get_labels parent_sorting parent.labels quality_metrics
                label_params))
              (some merge_groups)
              (if units_merged then none
               else some (PyVal.metricsDict quality_metrics))
              "auto curated" with
          | none => AutoMakeOutcome.idLoopPending
          | some (_, new_row, new_ledger) =>
            AutoMakeOutcome.inserted new_row new_ledger
        | _ => AutoMakeOutcome.error PyError.attributeError

/-- The fixed rejection label set of FinalizedSpikeSorting.make. -/
def unit_labels_to_remove : List String := ["reject", "noise"]

/-- Label lookup in the labels dict of a Curation row. -/
def lookupLabels (unit_labels : Labels) (u : UnitId) : Option (List String) :=
  (unit_labels.find? (fun p => p.1 == u)).map Prod.snd

/-- The accepted-units loop of FinalizedSpikeSorting.make, lines 647 to
653 of the source: a unit with a labels entry is kept when the entry has
empty intersection with unit_labels_to_remove; a unit without a labels
entry is kept unconditionally. -/
def acceptedUnitsLoop (unit_labels : Labels) : List UnitId → List UnitId
  | [] => []
  | u :: rest =>
    match lookupLabels unit_labels u with
    | some ls =>
      if (unit_labels_to_remove.inter ls).length == 0 then
        u :: acceptedUnitsLoop unit_labels rest
      else acceptedUnitsLoop unit_labels rest
    | none => u :: acceptedUnitsLoop unit_labels rest

/-- The label-string loop of FinalizedSpikeSorting.make, lines 656 to 658
of the source: for every accepted unit it evaluates unit_labels[unit_id],
which raises a KeyError when the unit has no labels entry, and otherwise
joins the entry with commas. -/
def buildLabelStrings (unit_labels : Labels) :
    List UnitId → Except PyError (List (UnitId × String))
  | [] => Except.ok []
  | u :: rest =>
    match lookupLabels unit_labels u with
    | none => Except.error (PyError.keyError u)
    | some ls =>
      match buildLabelStrings unit_labels rest with
      | Except.error e => Except.error e
      | Except.ok r => Except.ok ((u, String.intercalate "," ls) :: r)

/-- metrics.loc[accepted_units], line 661 of the source: row selection by
a list of unit ids. On a unit-indexed metrics table it raises a KeyError
when a requested id is missing from the index and otherwise restricts the
table to the requested rows; any other blob value (for example the
metric-name-keyed dict the pipeline itself stores) has no loc attribute,
so the access raises an AttributeError. -/
def metricsLoc (metrics : PyVal) (ids : List UnitId) : Except PyError PyVal :=
  match metrics with
  | PyVal.metricsMap m =>
    if ids.all (fun u => m.any (fun p => p.1 == u)) then
      Except.ok (PyVal.metricsMap (ids.map (fun u =>
        (u, ((m.find? (fun p => p.1 == u)).map Prod.snd).getD []))))
    else Except.error PyError.locKeyError
  | _ => Except.error PyError.attributeError

/-- A write performed by FinalizedSpikeSorting.make: the top-level export
row (self.insert1) or a per-unit row (self.Unit.insert1). -/
inductive FinalWrite where
  | exportRecord
  | unitRow (u : UnitId)
deriving DecidableEq

/-- Outcome of one FinalizedSpikeSorting.make run. -/
inductive FinalizeOutcome where
  /-- the run reached the write phase; writes lists the performed inserts
  in order -/
  | completed (writes : List FinalWrite)
  /-- the early return at the no-labels or no-accepted-units check: the
  run logs and returns without writing -/
  | noAcceptedReturn
  /-- an exception propagated to the caller before any write -/
  | error (e : PyError)
deriving DecidableEq

/-- The inserts performed by a finalization run. -/
def finalizeWrites : FinalizeOutcome → List FinalWrite
  | FinalizeOutcome.completed ws => ws
  | _ => []

/-- The message of the exception raised when the Curation row fetch
fails; the source interpolates the key into it. -/
def metricsPreconditionMessage : String :=
  "Metrics for Curation must be calculated before it can be inserted here"

/-- The first accepted unit without a labels entry, if any. -/
def firstMissingLabel (unit_labels : Labels) : List UnitId → Option UnitId
  | [] => none
  | u :: rest =>
    if (lookupLabels unit_labels u).isNone then some u
    else firstMissingLabel unit_labels rest

/-- FinalizedSpikeSorting.make, lines 633 to 706 of the source: the body
that runs once the Curation row has been fetched (record) over the
sorting loaded from sorting_path (base). In source order: resolve the curated
sorting (method calls on the NotImplementedError class object raise an
AttributeError), collect accepted units, build the comma-joined label
strings, select the accepted rows of the metrics table, then the early
return when there are no labels or no accepted units. The nwb export
bookkeeping (orig_units, sort interval, save_sorting_nwb) is external and
modelled as succeeding. The writes are self.insert1 followed by a single
self.Unit.insert1: in the source the latter sits outside the per-unit
loop, so it inserts one row carrying the key fields of the final loop
iteration, the last accepted unit. -/
def finalize_body (record : CurationRecord) (base : Sorting) :
    FinalizeOutcome :=
  match get_curated_sorting_extractor base record.merge_groups with
  | Except.error e => FinalizeOutcome.error e
  | Except.ok (PyVal.sorting sorting) =>
    match buildLabelStrings record.labels
        (acceptedUnitsLoop record.labels sorting.get_unit_ids) with
    | Except.error e => FinalizeOutcome.error e
    | Except.ok _ =>
      match metricsLoc record.metrics
          (acceptedUnitsLoop record.labels sorting.get_unit_ids) with
      | Except.error e => FinalizeOutcome.error e
      | Except.ok _ =>
        if record.labels.length == 0
            || (acceptedUnitsLoop record.labels
              sorting.get_unit_ids).length == 0 then
          FinalizeOutcome.noAcceptedReturn
        else
          match (acceptedUnitsLoop record.labels
              sorting.get_unit_ids).getLast? with
          | some lastUnit =>
            FinalizeOutcome.completed
              [FinalWrite.exportRecord, FinalWrite.unitRow lastUnit]
          | none => FinalizeOutcome.completed [FinalWrite.exportRecord]
  | Except.ok _ => FinalizeOutcome.error PyError.attributeError

/-- FinalizedSpikeSorting.make, outer layer: the try/except around
fetch1, which raises the metrics-must-be-calculated Exception exactly
when no Curation row matches the key; with a row present the body above
runs and the metrics value, empty or not, is never inspected by the
check. -/
def FinalizedSpikeSorting_make (row : Option CurationRecord) (base : Sorting) :
    FinalizeOutcome :=
  match row with
  | none =>
    FinalizeOutcome.error (PyError.exceptionMsg metricsPreconditionMessage)
  | some record => finalize_body record base

/-- A small base sorting with three units. -/
def sampleSorting : Sorting := ⟨[(1, [5, 2]), (2, [7]), (3, [1])]⟩

/-- C1: the claim states that get_curated_sorting_extractor applies a
non-empty merge_groups list, combining each merge group into a single
merged unit with concatenated re-sorted spike times and a fresh synthetic
id. The code contradicts its own docstring (returns the sorting with
merges applied): for the curation with merge_groups equal to the single
group of units 1 and 2 over sampleSorting, the function hands back the
NotImplementedError class object, which is not a sorting view at all and
in particular not the merged view the spec policy describes; only the
empty merge_groups half of the claim holds, the base sorting returned
unchanged. -/
theorem curatedExtractorMergeStub_C1 :
    get_curated_sorting_extractor sampleSorting (PyVal.groups [[1, 2]]) =
      Except.ok PyVal.notImplementedErrorClass
    ∧ (∀ s : Sorting,
        get_curated_sorting_extractor sampleSorting (PyVal.groups [[1, 2]]) ≠
          Except.ok (PyVal.sorting s))
    ∧ get_curated_sorting_extractor sampleSorting (PyVal.groups [[1, 2]]) ≠
        Except.ok (PyVal.sorting (get_curated_view_spec sampleSorting [[1, 2]]))
    ∧ get_curated_sorting_extractor sampleSorting (PyVal.groups []) =
        Except.ok (PyVal.sorting sampleSorting) := by
  refine ⟨rfl, ?_, ?_, rfl⟩
  · intro s h
    simp [get_curated_sorting_extractor] at h
  · intro h
    simp [get_curated_sorting_extractor] at h

/-- C2: the claim states that a needed-but-unsupported merge application
raises a NotImplementedError-class exception and never hands back a
non-error value. The code instead executes return NotImplementedError:
for every non-empty merge-group list the function returns the exception
class object as an ordinary ok value and raises nothing. -/
theorem mergeNotRaised_C2 :
    ∀ (s : Sorting) (g : List (List UnitId)), g ≠ [] →
      get_curated_sorting_extractor s (PyVal.groups g) =
        Except.ok PyVal.notImplementedErrorClass := by
  intro s g hg
  unfold get_curated_sorting_extractor
  have hlen : (g.length != 0) = true := by
    cases g with
    | nil => exact absurd rfl hg
    | cons a t => simp
  simp [hlen]

/-- C2 witness: the non-emptiness hypothesis discharged at the concrete
merge-group list containing the group of units 1 and 2. -/
theorem mergeNotRaised_C2_witness :
    ([[1, 2]] : List (List UnitId)) ≠ []
    ∧ get_curated_sorting_extractor sampleSorting (PyVal.groups [[1, 2]]) =
        Except.ok PyVal.notImplementedErrorClass :=
  ⟨by simp, mergeNotRaised_C2 sampleSorting [[1, 2]] (by simp)⟩

/-- C3: the claim states that get_merge_groups with empty merge_params
returns the pair of the parent merge-group list and the flag false. The
code does return a pair with flag false, but its first component is the
sorting extractor argument, never the merge-group list: the caller then
stores that extractor in the merge_groups column of the new Curation
row. -/
theorem emptyMergeParamsReturnsSorting_C3 :
    ∀ (s : Sorting) (pmg : List (List UnitId)) (qm : QualityMetricsJson),
      get_merge_groups (PyVal.sorting s) (PyVal.groups pmg) qm [] =
        Except.ok (GetMergeGroupsReturn.tuple (PyVal.sorting s) false)
      ∧ ∀ g : List (List UnitId), PyVal.sorting s ≠ PyVal.groups g := by
  intro s pmg qm
  exact ⟨rfl, fun g h => PyVal.noConfusion h⟩

/-- Successful insert_curation calls are exactly: a fresh id was found,
the assembled row was appended. -/
theorem insert_curation_some_eq :
    ∀ (ledger : List CurationRecord) (uuids : Nat → String) (fuel : Nat)
      (parent_curation_id : String) (labels : Option Labels)
      (merge_groups metrics : Option PyVal) (description : String)
      (id : String) (row : CurationRecord) (led : List CurationRecord),
      insert_curation ledger uuids fuel parent_curation_id labels merge_groups
          metrics description = some (id, row, led) →
      generateUniqueId ledger uuids 0 fuel = some id
      ∧ row = mkCurationRecord id parent_curation_id labels merge_groups
          metrics description
      ∧ led = ledger ++ [row] := by
  intro ledger uuids fuel parent_curation_id labels merge_groups metrics
    description id row led h
  unfold insert_curation at h
  split at h
  · exact absurd h (by simp)
  · rename_i id0 hgen
    simp only [Option.some.injEq, Prod.mk.injEq] at h
    obtain ⟨h1, h2, h3⟩ := h
    subst h1
    subst h2
    subst h3
    exact ⟨hgen, rfl, rfl⟩

/-- A quality-metrics json with one metric over one unit. -/
def sampleQm : QualityMetricsJson := [("snr", [("1", 5)])]

/-- A parent curation row with no merges recorded. -/
def autoParent : CurationRecord :=
  ⟨"C_p0000000", "original", [(1, ["good"])], PyVal.groups [],
    PyVal.metricsDict [], ""⟩

/-- A uuid draw stream that always yields the same eight characters. -/
def sampleUuids : Nat → String := fun _ => "aaaabbbb"

/-- The row the sample AutomaticCuration run inserts. -/
def autoInsertedRow : CurationRecord :=
  mkCurationRecord "C_aaaabbbb" "original" (some [(1, ["good"])])
    (some (PyVal.sorting sampleSorting)) (some (PyVal.metricsDict sampleQm))
    "auto curated"

/-- C4: in every AutomaticCuration run that registers a new Curation row,
the metrics stored in that row are empty when the units_merged flag is
true and equal the loaded quality-metrics json when the flag is false.
In the code the flag-true case aborts before the insert (the
returnedNotImplemented outcome), so the first conditional is vacuous
there; every inserted row carries the loaded metrics. -/
theorem metricsCarryForward_C4 :
    ∀ (qm : QualityMetricsJson) (parent : CurationRecord) (base : Sorting)
      (merge_params label_params : List (String × String))
      (parent_curation_id : String) (ledger : List CurationRecord)
      (uuids : Nat → String) (fuel : Nat) (row : CurationRecord)
      (led : List CurationRecord),
      AutomaticCuration_make qm parent base merge_params label_params
          parent_curation_id ledger uuids fuel =
        AutoMakeOutcome.inserted row led →
      (autoUnitsMerged qm parent base merge_params = some true →
        row.metrics = PyVal.metricsDict [])
      ∧ (autoUnitsMerged qm parent base merge_params = some false →
        row.metrics = PyVal.metricsDict qm) := by
  intro qm parent base merge_params label_params parent_curation_id ledger
    uuids fuel row led h
  unfold AutomaticCuration_make at h
  split at h
  · simp at h
  · rename_i parent_sorting hcur
    split at h
    · simp at h
    · simp at h
    · rename_i mg units_merged hmg
      have hflag : autoUnitsMerged qm parent base merge_params =
          some units_merged := by
        simp [autoUnitsMerged, autoMergeStep, hcur, hmg]
      split at h
      · simp at h
      · rename_i hum
        have hfalse : units_merged = false := by
          cases units_merged
          · rfl
          · exact absurd rfl hum
        subst hfalse
        split at h
        · rename_i s hps
          split at h
          · simp at h
          · rename_i id0 row0 led0 hins
            simp only [AutoMakeOutcome.inserted.injEq] at h
            obtain ⟨hrow, hled⟩ := h
            have hshape := insert_curation_some_eq ledger uuids fuel
              parent_curation_id _ _ _ _ id0 row0 led0 hins
            constructor
            · intro htrue
              rw [hflag] at htrue
              simp at htrue
            · intro _
              rw [← hrow, hshape.2.1]
              rfl
        · simp at h

/-- C4 witness: a concrete run with empty merge and label parameters
inserts a row whose metrics equal the loaded quality-metrics json. -/
theorem metricsCarryForward_C4_witness :
    (autoUnitsMerged sampleQm autoParent sampleSorting [] = some true →
      autoInsertedRow.metrics = PyVal.metricsDict [])
    ∧ (autoUnitsMerged sampleQm autoParent sampleSorting [] = some false →
      autoInsertedRow.metrics = PyVal.metricsDict sampleQm) :=
  metricsCarryForward_C4 sampleQm autoParent sampleSorting [] [] "original"
    [] sampleUuids 1 autoInsertedRow [autoInsertedRow] (by rfl)

/-- The accepted-units loop is the filter keeping the units whose label
entry, defaulted to the empty list, has empty intersection with the
rejection set. -/
theorem acceptedUnitsLoop_eq_filter :
    ∀ (ids : List UnitId) (unit_labels : Labels),
      acceptedUnitsLoop unit_labels ids =
        ids.filter (fun u =>
          (unit_labels_to_remove.inter
            ((lookupLabels unit_labels u).getD [])).length == 0) := by
  intro ids unit_labels
  induction ids with
  | nil => rfl
  | cons u rest ih =>
    rw [List.filter_cons]
    unfold acceptedUnitsLoop
    cases hl : lookupLabels unit_labels u with
    | none =>
      have hp : ((unit_labels_to_remove.inter
          ([] : List String)).length == 0) = true := by decide
      simp [Option.getD, hp, ih]
    | some ls =>
      cases hc : ((unit_labels_to_remove.inter ls).length == 0) with
      | true => simp [Option.getD, hc, ih]
      | false => simp [Option.getD, hc, ih]

/-- C5: finalization accepts exactly the units of the curated view whose
label set does not intersect the rejection set of reject and noise; a
unit with no labels entry, or an empty entry, is accepted. On the
concrete example of units 1, 2, 3 with labels noise for 1, good for 2
and the empty set for 3, the accepted units are 2 and 3. -/
theorem acceptedUnitsCharacterization_C5 :
    (∀ (ids : List UnitId) (unit_labels : Labels) (u : UnitId),
        u ∈ acceptedUnitsLoop unit_labels ids ↔
          u ∈ ids ∧
            unit_labels_to_remove.inter
              ((lookupLabels unit_labels u).getD []) = [])
    ∧ acceptedUnitsLoop [(1, ["noise"]), (2, ["good"]), (3, [])] [1, 2, 3] =
        [2, 3] := by
  constructor
  · intro ids unit_labels u
    rw [acceptedUnitsLoop_eq_filter, List.mem_filter]
    simp [List.length_eq_zero]
  · decide

/-- A metrics table over the accepted units 2 and 3 of the finalization
example. -/
def finalizeSampleRecord : CurationRecord :=
  ⟨"C_f0000000", "original", [(1, ["noise"]), (2, ["good"]), (3, [])],
    PyVal.groups [], PyVal.metricsMap [(2, [("snr", 4)]), (3, [("snr", 5)])],
    ""⟩

/-- A curated view with the three units of the finalization example. -/
def finalizeSampleBase : Sorting := ⟨[(1, [0]), (2, [0]), (3, [0])]⟩

/-- C6: the claim states that a finalization run reaching the write phase
writes one export record plus one Unit row per accepted unit. In the
source the Unit insert sits outside the per-unit loop, so the run on the
example curation, with the two accepted units 2 and 3, writes the export
record and a single Unit row, the one of the last accepted unit 3. -/
theorem singleUnitRowWritten_C6 :
    acceptedUnitsLoop finalizeSampleRecord.labels
        finalizeSampleBase.get_unit_ids = [2, 3]
    ∧ FinalizedSpikeSorting_make (some finalizeSampleRecord)
        finalizeSampleBase =
      FinalizeOutcome.completed
        [FinalWrite.exportRecord, FinalWrite.unitRow 3]
    ∧ (finalizeWrites (FinalizedSpikeSorting_make (some finalizeSampleRecord)
        finalizeSampleBase)).countP
        (fun w => match w with
          | FinalWrite.unitRow _ => true
          | FinalWrite.exportRecord => false) = 1 := by
  refine ⟨by decide, by decide, by decide⟩

/-- get_curated_sorting_extractor only ever raises a TypeError. -/
theorem get_curated_error_shape :
    ∀ (s : Sorting) (mg : PyVal) (e : PyError),
      get_curated_sorting_extractor s mg = Except.error e →
        e = PyError.typeError := by
  intro s mg e h
  cases mg with
  | groups g =>
    unfold get_curated_sorting_extractor at h
    split at h
    all_goals split at h
    all_goals simp at h
  | sorting s2 => injection h with h2; exact h2.symm
  | notImplementedErrorClass => injection h with h2; exact h2.symm
  | metricsDict m => injection h with h2; exact h2.symm
  | metricsMap m => injection h with h2; exact h2.symm

/-- buildLabelStrings only ever raises KeyErrors. -/
theorem buildLabelStrings_error_shape :
    ∀ (unit_labels : Labels) (l : List UnitId) (e : PyError),
      buildLabelStrings unit_labels l = Except.error e →
        ∃ u, e = PyError.keyError u := by
  intro unit_labels l
  induction l with
  | nil =>
    intro e h
    simp [buildLabelStrings] at h
  | cons u rest ih =>
    intro e h
    unfold buildLabelStrings at h
    split at h
    · exact ⟨u, by injection h with h2; exact h2.symm⟩
    · rename_i ls hl
      split at h
      · rename_i e2 hb
        injection h with h2
        exact h2 ▸ ih e2 hb
      · simp at h

/-- metricsLoc only ever raises the loc KeyError or an AttributeError. -/
theorem metricsLoc_error_shape :
    ∀ (m : PyVal) (ids : List UnitId) (e : PyError),
      metricsLoc m ids = Except.error e →
        e = PyError.locKeyError ∨ e = PyError.attributeError := by
  intro m ids e h
  cases m with
  | metricsMap mm =>
    unfold metricsLoc at h
    split at h
    all_goals split at h
    all_goals first
      | exact Or.inl (by injection h with h2; exact h2.symm)
      | simp at h
  | sorting s => exact Or.inr (by injection h with h2; exact h2.symm)
  | groups g => exact Or.inr (by injection h with h2; exact h2.symm)
  | notImplementedErrorClass =>
    exact Or.inr (by injection h with h2; exact h2.symm)
  | metricsDict mm => exact Or.inr (by injection h with h2; exact h2.symm)

/-- A curation row whose metrics blob is empty, over an empty sorting. -/
def emptyMetricsRecord : CurationRecord :=
  ⟨"C_e0000000", "original", [], PyVal.groups [], PyVal.metricsMap [], ""⟩

/-- A sorting with no units. -/
def emptySorting : Sorting := ⟨[]⟩

/-- C7: the claim states that finalizing a curation whose metrics field
is empty raises the metrics-must-be-calculated precondition error and
writes nothing. The code check only tests that the Curation row can be
fetched: with any present row that error is never raised, and on the
concrete empty-metrics row the run takes the early return, raising no
error at all; no write is performed either way. -/
theorem emptyMetricsNoPreconditionError_C7 :
    (∀ (record : CurationRecord) (base : Sorting),
        FinalizedSpikeSorting_make (some record) base ≠
          FinalizeOutcome.error
            (PyError.exceptionMsg metricsPreconditionMessage))
    ∧ FinalizedSpikeSorting_make (some emptyMetricsRecord) emptySorting =
        FinalizeOutcome.noAcceptedReturn
    ∧ finalizeWrites (FinalizedSpikeSorting_make (some emptyMetricsRecord)
        emptySorting) = [] := by
  refine ⟨?_, by decide, by decide⟩
  intro record base h
  have hb : finalize_body record base =
      FinalizeOutcome.error
        (PyError.exceptionMsg metricsPreconditionMessage) := h
  unfold finalize_body at hb
  split at hb
  · rename_i e hc
    injection hb with h2
    have := get_curated_error_shape base record.merge_groups e hc
    rw [this] at h2
    exact PyError.noConfusion h2
  · rename_i sorting hc
    split at hb
    · rename_i e hbl
      injection hb with h2
      obtain ⟨u, hu⟩ := buildLabelStrings_error_shape record.labels _ e hbl
      rw [hu] at h2
      exact PyError.noConfusion h2
    · split at hb
      · rename_i e hml
        injection hb with h2
        rcases metricsLoc_error_shape record.metrics _ e hml with h3 | h3 <;>
          (rw [h3] at h2; exact PyError.noConfusion h2)
      · split at hb
        · exact FinalizeOutcome.noConfusion hb
        · split at hb <;> exact FinalizeOutcome.noConfusion hb
  · rename_i v hc hne
    injection hb with h2
    exact PyError.noConfusion h2

/-- An id handed back by the generation loop never collides with an
existing curation id. -/
theorem generateUniqueId_fresh :
    ∀ (fuel i : Nat) (ledger : List CurationRecord) (uuids : Nat → String)
      (id : String),
      generateUniqueId ledger uuids i fuel = some id →
        id ∉ curationIds ledger := by
  intro fuel
  induction fuel with
  | zero =>
    intro i ledger uuids id h
    simp [generateUniqueId] at h
  | succ n ih =>
    intro i ledger uuids id h
    unfold generateUniqueId at h
    split at h
    · rename_i hfil
      injection h with h2
      subst h2
      have hall : ∀ a ∈ ledger, ¬a.curation_id = candidateId uuids i := by
        simpa using hfil
      intro hmem
      obtain ⟨r, hr, hrid⟩ := List.mem_map.mp hmem
      exact hall r hr hrid
    · exact ih (i + 1) ledger uuids id h

/-- One queued call of Curation.insert_curation: the uuid stream and fuel
of the run together with the arguments of the call. -/
structure InsertRequest where
  uuids : Nat → String
  fuel : Nat
  parent_curation_id : String
  labels : Option Labels
  merge_groups : Option PyVal
  metrics : Option PyVal
  description : String

/-- A sequence of insert_curation calls threaded through the ledger; a
call whose id loop has not terminated inserts nothing. -/
def applyInserts : List InsertRequest → List CurationRecord →
    List CurationRecord
  | [], ledger => ledger
  | req :: rest, ledger =>
    match insert_curation ledger req.uuids req.fuel req.parent_curation_id
        req.labels req.merge_groups req.metrics req.description with
    | none => applyInserts rest ledger
    | some (_, _, led) => applyInserts rest led

/-- C8: every successful Curation insert returns an id distinct from
every id already present in the ledger, and appends exactly that id; in
consequence, after any sequence of inserts starting from a ledger with
pairwise distinct ids, the ids remain pairwise distinct. -/
theorem insertIdsUnique_C8 :
    (∀ (ledger : List CurationRecord) (uuids : Nat → String) (fuel : Nat)
        (parent_curation_id : String) (labels : Option Labels)
        (merge_groups metrics : Option PyVal) (description : String)
        (id : String) (row : CurationRecord) (led : List CurationRecord),
        insert_curation ledger uuids fuel parent_curation_id labels
            merge_groups metrics description = some (id, row, led) →
          id ∉ curationIds ledger
          ∧ curationIds led = curationIds ledger ++ [id])
    ∧ (∀ (reqs : List InsertRequest) (ledger : List CurationRecord),
        (curationIds ledger).Nodup →
          (curationIds (applyInserts reqs ledger)).Nodup) := by
  constructor
  · intro ledger uuids fuel parent_curation_id labels merge_groups metrics
      description id row led h
    obtain ⟨hgen, hrow, hled⟩ := insert_curation_some_eq ledger uuids fuel
      parent_curation_id labels merge_groups metrics description id row led h
    refine ⟨generateUniqueId_fresh fuel 0 ledger uuids id hgen, ?_⟩
    subst hled
    subst hrow
    simp [curationIds, mkCurationRecord]
  · intro reqs
    induction reqs with
    | nil =>
      intro ledger h
      simpa [applyInserts] using h
    | cons req rest ih =>
      intro ledger h
      unfold applyInserts
      cases hins : insert_curation ledger req.uuids req.fuel
          req.parent_curation_id req.labels req.merge_groups req.metrics
          req.description with
      | none => exact ih ledger h
      | some t =>
        obtain ⟨id0, row0, led0⟩ := t
        apply ih led0
        obtain ⟨hgen, hrow, hled⟩ := insert_curation_some_eq ledger req.uuids
          req.fuel req.parent_curation_id req.labels req.merge_groups
          req.metrics req.description id0 row0 led0 hins
        have hfresh := generateUniqueId_fresh req.fuel 0 ledger req.uuids
          id0 hgen
        subst hled
        subst hrow
        simp [curationIds, List.nodup_append, mkCurationRecord]
        exact ⟨by simpa [curationIds] using h,
          by simpa [curationIds, List.disjoint_singleton] using hfresh⟩

/-- C8 witness: the first insert on an empty ledger with a fixed uuid
stream yields a fresh id, and a one-request sequence keeps the ids
pairwise distinct. -/
theorem insertIdsUnique_C8_witness :
    ("C_aaaabbbb" ∉ curationIds []
      ∧ curationIds
          [mkCurationRecord "C_aaaabbbb" "original" none none none ""] =
        curationIds [] ++ ["C_aaaabbbb"])
    ∧ (curationIds (applyInserts
        [⟨sampleUuids, 1, "original", none, none, none, ""⟩] [])).Nodup :=
  ⟨insertIdsUnique_C8.1 [] sampleUuids 1 "original" none none none ""
      "C_aaaabbbb" (mkCurationRecord "C_aaaabbbb" "original" none none none "")
      [mkCurationRecord "C_aaaabbbb" "original" none none none ""] (by rfl),
    insertIdsUnique_C8.2 [⟨sampleUuids, 1, "original", none, none, none, ""⟩]
      [] (by decide)⟩

/-- A uuid draw stream for the dangling-parent insert. -/
def c9Uuids : Nat → String := fun _ => "deadbeef"

/-- C9 counterexample: the claim states that an insert whose
parent_curation_id refers to no existing record fails with a
ValidationError and inserts nothing. On the empty ledger no record has
the id C_missing, yet insert_curation with that parent succeeds and
appends a row carrying the dangling parent id. -/
theorem danglingParentInsertSucceeds_C9 :
    (([] : List CurationRecord).filter
        (fun r => r.curation_id == "C_missing")).length = 0
    ∧ insert_curation [] c9Uuids 1 "C_missing" none none none "" =
        some ("C_deadbeef",
          mkCurationRecord "C_deadbeef" "C_missing" none none none "",
          [mkCurationRecord "C_deadbeef" "C_missing" none none none ""]) :=
  ⟨rfl, rfl⟩

/-- C9 amended: insert_curation validates nothing about the parent id;
whenever the id loop finds a fresh id, the insert succeeds and appends
exactly one row carrying the given parent_curation_id, even when no
record in the ledger has that id. The missing-sorting-reference half of
the original claim concerns the external ORM insert, which is outside
this fragment. -/
theorem insertNoParentValidation_C9 :
    ∀ (ledger : List CurationRecord) (uuids : Nat → String) (fuel : Nat)
      (parent_curation_id : String) (labels : Option Labels)
      (merge_groups metrics : Option PyVal) (description : String)
      (id : String),
      (∀ r ∈ ledger, r.curation_id ≠ parent_curation_id) →
      generateUniqueId ledger uuids 0 fuel = some id →
      insert_curation ledger uuids fuel parent_curation_id labels
          merge_groups metrics description =
        some (id,
          mkCurationRecord id parent_curation_id labels merge_groups metrics
            description,
          ledger ++ [mkCurationRecord id parent_curation_id labels
            merge_groups metrics description]) := by
  intro ledger uuids fuel parent_curation_id labels merge_groups metrics
    description id hpar hgen
  unfold insert_curation
  rw [hgen]

/-- C9 witness: the amended statement applied on the empty ledger with
the dangling parent id C_missing. -/
theorem insertNoParentValidation_C9_witness :
    insert_curation [] c9Uuids 1 "C_missing" none none none "" =
      some ("C_deadbeef",
        mkCurationRecord "C_deadbeef" "C_missing" none none none "",
        [mkCurationRecord "C_deadbeef" "C_missing" none none none ""]) :=
  insertNoParentValidation_C9 [] c9Uuids 1 "C_missing" none none none ""
    "C_deadbeef" (by intro r hr; exact absurd hr (List.not_mem_nil r))
    (by rfl)

/-- When some accepted unit has no labels entry, the label-string loop
raises the KeyError of the first such unit. -/
theorem buildLabelStrings_missing :
    ∀ (unit_labels : Labels) (l : List UnitId),
      l.any (fun u => (lookupLabels unit_labels u).isNone) = true →
      buildLabelStrings unit_labels l =
        Except.error (PyError.keyError
          ((firstMissingLabel unit_labels l).getD 0)) := by
  intro unit_labels l
  induction l with
  | nil =>
    intro h
    simp at h
  | cons u rest ih =>
    intro h
    unfold buildLabelStrings firstMissingLabel
    cases hl : lookupLabels unit_labels u with
    | none => simp
    | some ls =>
      have hrest : rest.any
          (fun v => (lookupLabels unit_labels v).isNone) = true := by
        simpa [List.any_cons, hl] using h
      simp [ih hrest]

/-- C10: finalizing a curation whose labels mapping is non-empty but
lacks an entry for some accepted unit of the curated view raises a
KeyError at the label-string loop, for the first such unit, before the
early-return check and before any write. -/
theorem missingLabelKeyError_C10 :
    ∀ (record : CurationRecord) (base : Sorting),
      record.merge_groups = PyVal.groups [] →
      record.labels ≠ [] →
      (acceptedUnitsLoop record.labels base.get_unit_ids).any
          (fun u => (lookupLabels record.labels u).isNone) = true →
      FinalizedSpikeSorting_make (some record) base =
        FinalizeOutcome.error (PyError.keyError
          ((firstMissingLabel record.labels
            (acceptedUnitsLoop record.labels base.get_unit_ids)).getD 0))
      ∧ finalizeWrites (FinalizedSpikeSorting_make (some record) base) =
          [] := by
  intro record base hmg hlab hany
  have hcur : get_curated_sorting_extractor base record.merge_groups =
      Except.ok (PyVal.sorting base) := by
    rw [hmg]
    rfl
  have hbuild := buildLabelStrings_missing record.labels
    (acceptedUnitsLoop record.labels base.get_unit_ids) hany
  have hmain : FinalizedSpikeSorting_make (some record) base =
      FinalizeOutcome.error (PyError.keyError
        ((firstMissingLabel record.labels
          (acceptedUnitsLoop record.labels base.get_unit_ids)).getD 0)) := by
    show finalize_body record base = _
    simp [finalize_body, hcur, hbuild]
  exact ⟨hmain, by rw [hmain]; rfl⟩

/-- A curation row that labels unit 1 but not unit 2. -/
def missingLabelRecord : CurationRecord :=
  ⟨"C_m0000000", "original", [(1, ["good"])], PyVal.groups [],
    PyVal.metricsMap [], ""⟩

/-- A curated view with units 1 and 2. -/
def twoUnitSorting : Sorting := ⟨[(1, [0]), (2, [0])]⟩

/-- C10 witness: the hypotheses discharged on a curation labelling unit 1
only, over a view with units 1 and 2; the run raises the KeyError of
unit 2 and writes nothing. -/
theorem missingLabelKeyError_C10_witness :
    FinalizedSpikeSorting_make (some missingLabelRecord) twoUnitSorting =
      FinalizeOutcome.error (PyError.keyError
        ((firstMissingLabel missingLabelRecord.labels
          (acceptedUnitsLoop missingLabelRecord.labels
            twoUnitSorting.get_unit_ids)).getD 0))
    ∧ finalizeWrites (FinalizedSpikeSorting_make (some missingLabelRecord)
        twoUnitSorting) = [] :=
  missingLabelKeyError_C10 missingLabelRecord twoUnitSorting rfl
    (by decide) (by decide)

end NwbDatajoint
